import Mathlib

/-!
Shallow Lean embedding of the renewal scripts in scripts/
(castle-host_renew.py, katabump_renew.py, lunes-host_renew.py,
weirdhost_renew.py), together with theorems settling the claims about
their pure helper logic and their outcome/notification decision logic.

Python strings are modelled as Lean String / List Char; Python builtins
(str.split, str.strip, str.lower, the "in" substring test) are embedded
as the explicit char-list functions below.  Fallible Python code that
returns None on failure is embedded with Option; a raised exception that
escapes a routine is embedded with Except.
-/

/-! ## Embeddings of the Python string builtins used by the scripts -/

/-- Python s.split(sep) for a one-character separator: splits at every
occurrence, keeping empty segments (so the result is never empty). -/
def pySplit (sep : Char) : List Char → List (List Char)
  | [] => [[]]
  | c :: rest =>
    match pySplit sep rest with
    | [] => [[]]
    | r :: rs => if c = sep then [] :: r :: rs else (c :: r) :: rs

/-- Whitespace as recognised by Python str.strip (the characters that
occur in the script data). -/
def isPySpace (c : Char) : Bool := c.isWhitespace

/-- Python s.strip(): remove leading and trailing whitespace. -/
def pyStrip (l : List Char) : List Char :=
  ((l.dropWhile isPySpace).reverse.dropWhile isPySpace).reverse

/-- Python s.strip() on String. -/
def pyStripStr (s : String) : String := (pyStrip s.toList).asString

/-- Python s.split(sep, 1) when sep occurs in s: the part before the
first occurrence and the part after it; none when sep does not occur. -/
def splitOnceAt (sep : Char) : List Char → Option (List Char × List Char)
  | [] => none
  | c :: rest =>
    if c = sep then some ([], rest)
    else
      match splitOnceAt sep rest with
      | some (a, b) => some (c :: a, b)
      | none => none

/-- Python "needle in hay" contiguous-substring test, on char lists. -/
def containsSub (needle : List Char) : List Char → Bool
  | [] => needle.isEmpty
  | c :: rest => needle.isPrefixOf (c :: rest) || containsSub needle rest

/-- Python "needle in hay" on String. -/
def strContains (hay needle : String) : Bool :=
  containsSub needle.toList hay.toList

/-- Python str.lower restricted to the alphabets that occur in the
scripts (ASCII letters and Russian Cyrillic). -/
def pyLowerChar (c : Char) : Char :=
  if c.isUpper then Char.ofNat (c.toNat + 32)
  else if 0x410 ≤ c.toNat ∧ c.toNat ≤ 0x42F then Char.ofNat (c.toNat + 32)
  else if c.toNat = 0x401 then Char.ofNat 0x451
  else c

/-- Python s.lower() on String. -/
def pyLowerStr (s : String) : String := (s.toList.map pyLowerChar).asString

/-- An apostrophe character, kept as a named string constant. -/
def apos : String := String.singleton (Char.ofNat 39)

/-- Python "a < b" on strings: lexicographic by code point. -/
def charListLt : List Char → List Char → Bool
  | [], [] => false
  | [], _ :: _ => true
  | _ :: _, [] => false
  | a :: as, b :: bs =>
    if a.toNat < b.toNat then true
    else if b.toNat < a.toNat then false
    else charListLt as bs

def pyStrLt (a b : String) : Bool := charListLt a.toList b.toList

/-! ## Browser cookie records

Each script builds Playwright cookie dictionaries with the keys
name / value / domain / path; this structure is that record shape. -/

structure CookieRec where
  name : String
  value : String
  domain : String
  path : String
  deriving DecidableEq, Repr

namespace Castle

/-- castle-host_renew.py parse_cookie_string, per ';'-segment:
strip the segment; skip it when empty; when it contains '=', split at
the first '=', strip name and value, and attach the provider domain and
path "/".  (The source re-assigns path "/" for the name PHPSESSID; the
value is unchanged, so no separate branch is needed.) -/
def parse_cookie_seg (raw : List Char) : Option CookieRec :=
  let p := pyStrip raw
  if p = [] then none
  else
    match splitOnceAt '=' p with
    | some (n, v) =>
        some { name := (pyStrip n).asString, value := (pyStrip v).asString,
               domain := ".castle-host.com", path := "/" }
    | none => none

/-- castle-host_renew.py parse_cookie_string: split the credential
string on ';' and build one cookie record per well-formed segment. -/
def parse_cookie_string (s : String) : List CookieRec :=
  (pySplit ';' s.toList).filterMap parse_cookie_seg

end Castle

namespace Lunes

/-- The three domains lunes-host_renew.py parse_cookies attaches each
name=value pair to. -/
def lunes_domains : List String :=
  [".lunes.host", "betadash.lunes.host", "ctrl.lunes.host"]

/-- lunes-host_renew.py parse_cookies, per ';'-segment: strip it and,
when it contains '=', emit one record per domain in lunes_domains with
the stripped name and value and path "/". -/
def parse_seg (raw : List Char) : List CookieRec :=
  match splitOnceAt '=' (pyStrip raw) with
  | some (n, v) =>
      lunes_domains.map (fun d =>
        { name := (pyStrip n).asString, value := (pyStrip v).asString,
          domain := d, path := "/" })
  | none => []

/-- lunes-host_renew.py parse_cookies. -/
def parse_cookies (s : String) : List CookieRec :=
  (pySplit ';' s.toList).flatMap parse_seg

end Lunes

/-! ## Helper lemmas about the string embeddings -/

theorem mem_dropWhile_iff_of_neg {p : Char → Bool} {c : Char}
    (hc : p c = false) : ∀ l : List Char, c ∈ l.dropWhile p ↔ c ∈ l := by
  intro l
  induction l with
  | nil => simp
  | cons a t ih =>
    by_cases ha : p a
    · rw [List.dropWhile_cons_of_pos ha]
      have hne : c ≠ a := fun h => by rw [h] at hc; rw [hc] at ha; cases ha
      simp [ih, hne]
    · rw [List.dropWhile_cons_of_neg ha]

theorem mem_pyStrip_iff {c : Char} (hc : isPySpace c = false)
    (l : List Char) : c ∈ pyStrip l ↔ c ∈ l := by
  unfold pyStrip
  rw [List.mem_reverse, mem_dropWhile_iff_of_neg hc, List.mem_reverse,
    mem_dropWhile_iff_of_neg hc]

theorem splitOnceAt_isSome_iff (sep : Char) :
    ∀ l : List Char, (splitOnceAt sep l).isSome = true ↔ sep ∈ l := by
  intro l
  induction l with
  | nil => simp [splitOnceAt]
  | cons a t ih =>
    by_cases ha : a = sep
    · subst ha; simp [splitOnceAt]
    · rw [splitOnceAt, if_neg ha]
      have hne : sep ≠ a := fun h => ha h.symm
      cases h : splitOnceAt sep t with
      | some v => simp [h, hne]; rw [← ih]; simp [h]
      | none => simp [h, hne]; rw [← ih]; simp [h]

theorem contains_char_iff_mem (c : Char) :
    ∀ l : List Char, l.contains c = true ↔ c ∈ l := by
  intro l
  induction l with
  | nil => simp
  | cons a t ih => simp

theorem length_filterMap_eq_countP {α β : Type} (f : α → Option β) :
    ∀ l : List α, (l.filterMap f).length = l.countP (fun a => (f a).isSome) := by
  intro l
  induction l with
  | nil => rfl
  | cons a t ih =>
    rw [List.filterMap_cons, List.countP_cons]
    cases h : f a with
    | some b => simp [h, ih]
    | none => simp [h, ih]

/-- A stripped segment still contains '=' exactly when the raw segment
does, so the first-'=' split on the stripped segment succeeds exactly
for segments containing '='. -/
theorem splitOnceAt_pyStrip_isSome (seg : List Char) :
    (splitOnceAt '=' (pyStrip seg)).isSome = seg.contains '=' := by
  rw [Bool.eq_iff_iff, splitOnceAt_isSome_iff, contains_char_iff_mem]
  exact mem_pyStrip_iff (by decide) seg

theorem parse_cookie_seg_isSome (seg : List Char) :
    (Castle.parse_cookie_seg seg).isSome = seg.contains '=' := by
  rw [← splitOnceAt_pyStrip_isSome]
  unfold Castle.parse_cookie_seg
  by_cases hp : pyStrip seg = []
  · simp [hp, splitOnceAt]
  · rw [if_neg hp]
    cases h : splitOnceAt '=' (pyStrip seg) with
    | some v => simp [h]
    | none => simp [h]

theorem parse_seg_length (seg : List Char) :
    (Lunes.parse_seg seg).length = if seg.contains '=' then 3 else 0 := by
  rw [← splitOnceAt_pyStrip_isSome]
  unfold Lunes.parse_seg
  cases h : splitOnceAt '=' (pyStrip seg) with
  | some v => simp [h, Lunes.lunes_domains]
  | none => simp [h]

theorem flatMap_parse_seg_length :
    ∀ segs : List (List Char),
      (segs.flatMap Lunes.parse_seg).length
        = 3 * segs.countP (fun seg => seg.contains '=') := by
  intro segs
  induction segs with
  | nil => rfl
  | cons a t ih =>
    rw [List.flatMap_cons, List.length_append, List.countP_cons, ih,
      parse_seg_length]
    by_cases h : a.contains '=' = true
    · rw [if_pos h, if_pos h]; omega
    · rw [if_neg h, if_neg h]; omega

/-! ## Claim C3 -/

/-- Claim C3: parsing a cookie credential string yields exactly one
record per ';'-separated segment that contains '=' (a malformed segment
without '=' is silently skipped), preserving the segment's
whitespace-trimmed name and value split at the first '=' only, with the
provider domain ".castle-host.com" and path "/"; in particular
"a=1; b=2" yields two records. -/
theorem c3_parse_cookie_string_records (s : String) :
    (∀ c ∈ Castle.parse_cookie_string s,
        c.domain = ".castle-host.com" ∧ c.path = "/")
  ∧ (Castle.parse_cookie_string s).length
      = (pySplit ';' s.toList).countP (fun seg => seg.contains '=')
  ∧ Castle.parse_cookie_string "a=1; b=2"
      = [⟨"a", "1", ".castle-host.com", "/"⟩,
         ⟨"b", "2", ".castle-host.com", "/"⟩]
  ∧ Castle.parse_cookie_string " a = b=c ;; x"
      = [⟨"a", "b=c", ".castle-host.com", "/"⟩] := by
  refine ⟨?_, ?_, by decide, by decide⟩
  · intro c hc
    rw [Castle.parse_cookie_string, List.mem_filterMap] at hc
    obtain ⟨seg, _, hseg⟩ := hc
    unfold Castle.parse_cookie_seg at hseg
    by_cases hp : pyStrip seg = []
    · rw [if_pos hp] at hseg; cases hseg
    · rw [if_neg hp] at hseg
      cases h : splitOnceAt '=' (pyStrip seg) with
      | some v => rw [h] at hseg; cases hseg; exact ⟨rfl, rfl⟩
      | none => rw [h] at hseg; cases hseg
  · rw [Castle.parse_cookie_string, length_filterMap_eq_countP]
    congr 1
    funext seg
    exact parse_cookie_seg_isSome seg

/-- Witness for C3 at a concrete credential string. -/
theorem c3_parse_cookie_string_records_witness :
    (⟨"d", "4", ".castle-host.com", "/"⟩ : CookieRec).domain
        = ".castle-host.com"
    ∧ (⟨"d", "4", ".castle-host.com", "/"⟩ : CookieRec).path = "/" :=
  (c3_parse_cookie_string_records "d=4").1
    ⟨"d", "4", ".castle-host.com", "/"⟩ (by decide)

/-! ## Claim C10 -/

/-- Claim C10: the Lunes cookie parser returns exactly three records
for every ';'-separated segment containing '=' — one per domain in
lunes_domains — each with path "/" and the trimmed name of the segment and
value, so n well-formed segments give 3·n records. -/
theorem c10_lunes_parse_cookies (s : String) :
    (Lunes.parse_cookies s).length
      = 3 * (pySplit ';' s.toList).countP (fun seg => seg.contains '=')
  ∧ (∀ c ∈ Lunes.parse_cookies s,
      c.path = "/" ∧ (c.domain = ".lunes.host"
        ∨ c.domain = "betadash.lunes.host" ∨ c.domain = "ctrl.lunes.host"))
  ∧ Lunes.parse_cookies "a=1; b=2"
      = [⟨"a", "1", ".lunes.host", "/"⟩,
         ⟨"a", "1", "betadash.lunes.host", "/"⟩,
         ⟨"a", "1", "ctrl.lunes.host", "/"⟩,
         ⟨"b", "2", ".lunes.host", "/"⟩,
         ⟨"b", "2", "betadash.lunes.host", "/"⟩,
         ⟨"b", "2", "ctrl.lunes.host", "/"⟩] := by
  refine ⟨flatMap_parse_seg_length _, ?_, by decide⟩
  intro c hc
  rw [Lunes.parse_cookies, List.mem_flatMap] at hc
  obtain ⟨seg, _, hseg⟩ := hc
  unfold Lunes.parse_seg at hseg
  cases h : splitOnceAt '=' (pyStrip seg) with
  | some v =>
    rw [h] at hseg
    rw [List.mem_map] at hseg
    obtain ⟨d, hd, rfl⟩ := hseg
    refine ⟨rfl, ?_⟩
    simp [Lunes.lunes_domains] at hd
    rcases hd with h | h | h <;> simp [h]
  | none => rw [h] at hseg; cases hseg

/-- Witness for C10 at a concrete credential string. -/
theorem c10_lunes_parse_cookies_witness :
    (⟨"k", "7", ".lunes.host", "/"⟩ : CookieRec).path = "/"
    ∧ ((⟨"k", "7", ".lunes.host", "/"⟩ : CookieRec).domain = ".lunes.host"
      ∨ (⟨"k", "7", ".lunes.host", "/"⟩ : CookieRec).domain
          = "betadash.lunes.host"
      ∨ (⟨"k", "7", ".lunes.host", "/"⟩ : CookieRec).domain
          = "ctrl.lunes.host") :=
  (c10_lunes_parse_cookies "k=7").2.1
    ⟨"k", "7", ".lunes.host", "/"⟩ (by decide)

/-! ## Dates

datetime dates are embedded as year/month/day triples; subtraction of
two midnight datetimes, whose .days the scripts use, is embedded as the
difference of proleptic-Gregorian day ordinals. -/

structure Date where
  year : Nat
  month : Nat
  day : Nat
  deriving DecidableEq, Repr

def isLeapYear (y : Nat) : Bool :=
  (y % 4 = 0 && y % 100 != 0) || y % 400 = 0

def daysInMonth (y m : Nat) : Nat :=
  if m = 2 then (if isLeapYear y then 29 else 28)
  else if m = 4 ∨ m = 6 ∨ m = 9 ∨ m = 11 then 30
  else 31

/-- The validity constraint the datetime constructor enforces
(MINYEAR = 1, MAXYEAR = 9999); constructing an invalid date raises. -/
def validDate (d : Date) : Bool :=
  1 ≤ d.year && d.year ≤ 9999 && 1 ≤ d.month && d.month ≤ 12
    && 1 ≤ d.day && d.day ≤ daysInMonth d.year d.month

def daysBeforeYear (y : Nat) : Nat :=
  365 * (y - 1) + ((y - 1) / 4 + (y - 1) / 400 - (y - 1) / 100)

def daysBeforeMonth (y m : Nat) : Nat :=
  (List.range (m - 1)).foldl (fun a k => a + daysInMonth y (k + 1)) 0

/-- Proleptic Gregorian ordinal of a date (datetime.toordinal). -/
def toOrdinal (d : Date) : Nat :=
  daysBeforeYear d.year + daysBeforeMonth d.year d.month + d.day

/-! ### strptime

CPython strptime matches a numeric directive against one or two digits
(four for %Y), preferring the two-digit reading and backtracking to the
one-digit one, and rejects trailing input; the resulting numbers must
then form a valid date.  The parsers below embed the three format
strings the scripts pass to strptime. -/

def digitVal (c : Char) : Option Nat :=
  if c.isDigit then some (c.toNat - 48) else none

/-- %Y: exactly four digits. -/
def parse4 : List Char → Option (Nat × List Char)
  | a :: b :: c :: d :: rest =>
    match digitVal a, digitVal b, digitVal c, digitVal d with
    | some w, some x, some y, some z =>
        some (((w * 10 + x) * 10 + y) * 10 + z, rest)
    | _, _, _, _ => none
  | _ => none

/-- %m / %d: the alternative readings of a one-or-two-digit field whose
value lies in [lo, hi], the two-digit reading first. -/
def field2 (lo hi : Nat) (l : List Char) : List (Nat × List Char) :=
  (match l with
   | a :: b :: r =>
     match digitVal a, digitVal b with
     | some x, some y =>
         let v := x * 10 + y
         if lo ≤ v ∧ v ≤ hi then [(v, r)] else []
     | _, _ => []
   | _ => []) ++
  (match l with
   | a :: r =>
     match digitVal a with
     | some x => if lo ≤ x ∧ x ≤ hi then [(x, r)] else []
     | none => []
   | _ => [])

/-- First alternative on which the continuation succeeds
(regex backtracking). -/
def firstSome {α β : Type} (f : α → Option β) : List α → Option β
  | [] => none
  | a :: rest =>
    match f a with
    | some b => some b
    | none => firstSome f rest

/-- The datetime constructor: some date only when valid, else the
ValueError path. -/
def mkValidDate (y m d : Nat) : Option Date :=
  if validDate ⟨y, m, d⟩ then some ⟨y, m, d⟩ else none

/-- strptime(s, "%d.%m.%Y") (castle-host_renew.py parse_date). -/
def parse_dmy (l : List Char) : Option Date :=
  firstSome (fun dp =>
    match dp.2 with
    | '.' :: r2 =>
      firstSome (fun mp =>
        match mp.2 with
        | '.' :: r4 =>
          match parse4 r4 with
          | some (y, []) => mkValidDate y mp.1 dp.1
          | _ => none
        | _ => none) (field2 1 12 r2)
    | _ => none) (field2 1 31 l)

/-- strptime(s, "%Y-%m-%d") (katabump_renew.py days_until and
castle-host_renew.py parse_date). -/
def parse_ymd (l : List Char) : Option Date :=
  match parse4 l with
  | some (y, '-' :: r1) =>
    firstSome (fun mp =>
      match mp.2 with
      | '-' :: r3 =>
        firstSome (fun dp =>
          match dp.2 with
          | [] => mkValidDate y mp.1 dp.1
          | _ => none) (field2 1 31 r3)
      | _ => none) (field2 1 12 r1)
  | _ => none

/-- strptime(s, "%Y年%m月%d日") (castle-host_renew.py parse_date). -/
def parse_ymd_cjk (l : List Char) : Option Date :=
  match parse4 l with
  | some (y, '年' :: r1) =>
    firstSome (fun mp =>
      match mp.2 with
      | '月' :: r3 =>
        firstSome (fun dp =>
          match dp.2 with
          | '日' :: [] => mkValidDate y mp.1 dp.1
          | _ => none) (field2 1 31 r3)
      | _ => none) (field2 1 12 r1)
  | _ => none

namespace Kata

/-- katabump_renew.py days_until: parse the string with
strptime "%Y-%m-%d" and return the day difference to today (the current
datetime truncated to midnight, here a parameter); on any parse failure
return None instead of raising. -/
def days_until (date_str : String) (today : Date) : Option Int :=
  match parse_ymd date_str.toList with
  | some exp => some ((toOrdinal exp : Int) - (toOrdinal today : Int))
  | none => none

end Kata

namespace Castle

/-- The digit runs re.findall(r"\d+", s) extracts, via a structural
accumulator. -/
def digitRunsAux : List Char → List Char × List (List Char)
  | [] => ([], [])
  | c :: rest =>
    match digitRunsAux rest with
    | (cur, runs) =>
      if c.isDigit then (c :: cur, runs)
      else ([], if cur = [] then runs else cur :: runs)

def digitRuns (l : List Char) : List (List Char) :=
  match digitRunsAux l with
  | (cur, runs) => if cur = [] then runs else cur :: runs

def strToNat (l : List Char) : Nat :=
  l.foldl (fun a c => a * 10 + (c.toNat - 48)) 0

/-- castle-host_renew.py parse_date digit fallback: extract the digit
runs; when there are at least three and the third has four digits, read
them as day.month.year and construct the date (an invalid triple raises
inside the try block, which the except turns into None). -/
def castle_fallback (l : List Char) : Option Date :=
  match digitRuns l with
  | n0 :: n1 :: n2 :: _ =>
    if n2.length = 4 then mkValidDate (strToNat n2) (strToNat n1) (strToNat n0)
    else none
  | _ => none

/-- castle-host_renew.py parse_date: try the formats
"%d.%m.%Y", "%Y年%m月%d日", "%Y-%m-%d" in order (a ValueError moves to
the next format), then the digit-run fallback; any remaining failure
yields None, never an escaping exception. -/
def parse_date (s : String) : Option Date :=
  match parse_dmy s.toList with
  | some d => some d
  | none =>
    match parse_ymd_cjk s.toList with
    | some d => some d
    | none =>
      match parse_ymd s.toList with
      | some d => some d
      | none => castle_fallback s.toList

end Castle

/-- ISO year-month-day rendering of a date, used to compare the
parser result against the expected "2026-01-12" string. -/
def pad2 (n : Nat) : String := if n < 10 then "0" ++ toString n else toString n

def pad4 (n : Nat) : String :=
  if n < 10 then "000" ++ toString n
  else if n < 100 then "00" ++ toString n
  else if n < 1000 then "0" ++ toString n
  else toString n

def isoFormat (d : Date) : String :=
  pad4 d.year ++ "-" ++ pad2 d.month ++ "-" ++ pad2 d.day

/-! ### Every parsed date is valid -/

theorem firstSome_eq_some {α β : Type} {f : α → Option β} {b : β} :
    ∀ {l : List α}, firstSome f l = some b → ∃ a ∈ l, f a = some b := by
  intro l
  induction l with
  | nil => intro h; cases h
  | cons a t ih =>
    intro h
    rw [firstSome] at h
    cases hfa : f a with
    | some v => rw [hfa] at h; cases h; exact ⟨a, by simp, hfa⟩
    | none =>
      rw [hfa] at h
      obtain ⟨x, hx, hfx⟩ := ih h
      exact ⟨x, by simp [hx], hfx⟩

theorem mkValidDate_valid {y m d : Nat} {dd : Date}
    (h : mkValidDate y m d = some dd) : validDate dd = true := by
  unfold mkValidDate at h
  by_cases hv : validDate ⟨y, m, d⟩ = true
  · rw [if_pos hv] at h; cases h; exact hv
  · rw [if_neg hv] at h; cases h

theorem parse_dmy_valid {l : List Char} {d : Date}
    (h : parse_dmy l = some d) : validDate d = true := by
  unfold parse_dmy at h
  obtain ⟨dp, _, h1⟩ := firstSome_eq_some h
  split at h1
  · obtain ⟨mp, _, h2⟩ := firstSome_eq_some h1
    split at h2
    · split at h2
      · exact mkValidDate_valid h2
      · cases h2
    · cases h2
  · cases h1

theorem parse_ymd_valid {l : List Char} {d : Date}
    (h : parse_ymd l = some d) : validDate d = true := by
  unfold parse_ymd at h
  split at h
  · obtain ⟨mp, _, h2⟩ := firstSome_eq_some h
    split at h2
    · obtain ⟨dp, _, h3⟩ := firstSome_eq_some h2
      split at h3
      · exact mkValidDate_valid h3
      · cases h3
    · cases h2
  · cases h

theorem parse_ymd_cjk_valid {l : List Char} {d : Date}
    (h : parse_ymd_cjk l = some d) : validDate d = true := by
  unfold parse_ymd_cjk at h
  split at h
  · obtain ⟨mp, _, h2⟩ := firstSome_eq_some h
    split at h2
    · obtain ⟨dp, _, h3⟩ := firstSome_eq_some h2
      split at h3
      · exact mkValidDate_valid h3
      · cases h3
    · cases h2
  · cases h

theorem castle_fallback_valid {l : List Char} {d : Date}
    (h : Castle.castle_fallback l = some d) : validDate d = true := by
  unfold Castle.castle_fallback at h
  split at h
  · split at h
    · exact mkValidDate_valid h
    · cases h
  · cases h

theorem parse_date_valid {s : String} {d : Date}
    (h : Castle.parse_date s = some d) : validDate d = true := by
  unfold Castle.parse_date at h
  cases h1 : parse_dmy s.toList with
  | some v => rw [h1] at h; cases h; exact parse_dmy_valid h1
  | none =>
    rw [h1] at h
    cases h2 : parse_ymd_cjk s.toList with
    | some v => rw [h2] at h; cases h; exact parse_ymd_cjk_valid h2
    | none =>
      rw [h2] at h
      cases h3 : parse_ymd s.toList with
      | some v => rw [h3] at h; cases h; exact parse_ymd_valid h3
      | none => rw [h3] at h; exact castle_fallback_valid h

/-! ## Claim C4 -/

/-- Claim C4: for every date string parseable as "%Y-%m-%d" the
KataBump days-remaining helper returns the day difference between the
parsed date and today-at-midnight, and for an unparsable string it
returns None rather than raising; concrete instances included. -/
theorem c4_days_until_spec :
    (∀ (s : String) (today e : Date), parse_ymd s.toList = some e →
        Kata.days_until s today
          = some ((toOrdinal e : Int) - (toOrdinal today : Int)))
  ∧ (∀ (s : String) (today : Date), parse_ymd s.toList = none →
        Kata.days_until s today = none)
  ∧ Kata.days_until "2026-01-12" ⟨2026, 1, 5⟩ = some 7
  ∧ Kata.days_until "2026-01-01" ⟨2026, 1, 5⟩ = some (-4)
  ∧ Kata.days_until "2026-03-01" ⟨2026, 2, 27⟩ = some 2
  ∧ Kata.days_until "12.01.2026" ⟨2026, 1, 5⟩ = none
  ∧ Kata.days_until "未知" ⟨2026, 1, 5⟩ = none := by
  refine ⟨?_, ?_, by decide, by decide, by decide, by decide, by decide⟩
  · intro s today e h
    unfold Kata.days_until
    rw [h]
  · intro s today h
    unfold Kata.days_until
    rw [h]

/-- Witness for C4: the general parseable and unparsable cases applied
at concrete inputs. -/
theorem c4_days_until_spec_witness :
    Kata.days_until "2025-12-31" ⟨2025, 12, 30⟩
        = some ((toOrdinal ⟨2025, 12, 31⟩ : Int)
            - (toOrdinal ⟨2025, 12, 30⟩ : Int))
    ∧ Kata.days_until "2025-13-31" ⟨2025, 12, 30⟩ = none :=
  ⟨c4_days_until_spec.1 "2025-12-31" ⟨2025, 12, 30⟩ ⟨2025, 12, 31⟩ (by decide),
   c4_days_until_spec.2.1 "2025-13-31" ⟨2025, 12, 30⟩ (by decide)⟩

/-! ## Claim C5 -/

/-- Claim C5 counterexample: the date helper of castle-host_renew.py
(parse_date) does not return a literal "Unknown" sentinel on unparsable
input — it returns None, so its (optional) ISO rendering on the
unparsable input "Unknown" is absent rather than the string "Unknown".
The "Unknown" sentinel in the sources is the default of the
page-scraping helpers, not of the date parser. -/
theorem c5_counterexample :
    Castle.parse_date "Unknown" = none
    ∧ (Castle.parse_date "Unknown").map isoFormat = none
    ∧ (Castle.parse_date "Unknown").map isoFormat ≠ some "Unknown" := by
  refine ⟨by decide, by decide, ?_⟩
  intro h
  rw [show Castle.parse_date "Unknown" = none from by decide] at h
  cases h

/-- Claim C5 as amended: parse_date maps "12.01.2026" (day.month.year)
to the date 2026-01-12, whose ISO rendering is "2026-01-12"; for
unparsable input it returns None, never raising, and every date it does
return is a valid calendar date. -/
theorem c5_amended_parse_date :
    Castle.parse_date "12.01.2026" = some ⟨2026, 1, 12⟩
  ∧ (Castle.parse_date "12.01.2026").map isoFormat = some "2026-01-12"
  ∧ Castle.parse_date "" = none
  ∧ Castle.parse_date "12.13.2026" = none
  ∧ Castle.parse_date "2026年1月12日" = some ⟨2026, 1, 12⟩
  ∧ Castle.parse_date "2026-01-12" = some ⟨2026, 1, 12⟩
  ∧ (∀ (s : String) (d : Date),
        Castle.parse_date s = some d → validDate d = true) :=
  ⟨by decide, by decide, by decide, by decide, by decide, by decide,
   fun _ _ h => parse_date_valid h⟩

/-- Witness for C5 (amended): the validity clause applied at a concrete
parse. -/
theorem c5_amended_parse_date_witness :
    validDate ⟨2026, 1, 30⟩ = true :=
  c5_amended_parse_date.2.2.2.2.2.2 "30.01.2026" ⟨2026, 1, 30⟩ (by decide)

/-! ## Weirdhost: renewal response classification

The JSON payload of the captured /renew response is embedded as a small
Python-value type; str(body) is embedded by the repr-style renderers. -/

inductive Py where
  | pstr (s : String)
  | pdict (entries : List (String × Py))
  | plist (items : List Py)

/-- Python repr of a plain string (escape sequences are not modelled;
the payloads in the scripts contain none). -/
def strRepr (s : String) : String := apos ++ s ++ apos

mutual

/-- Python repr of an embedded value. -/
def pyRepr : Py → String
  | .pstr s => strRepr s
  | .pdict es => "\x7b" ++ pyReprEntries es ++ "\x7d"
  | .plist xs => "[" ++ pyReprItems xs ++ "]"

def pyReprEntries : List (String × Py) → String
  | [] => ""
  | [e] => strRepr e.1 ++ ": " ++ pyRepr e.2
  | e :: rest => strRepr e.1 ++ ": " ++ pyRepr e.2 ++ ", " ++ pyReprEntries rest

def pyReprItems : List Py → String
  | [] => ""
  | [x] => pyRepr x
  | x :: rest => pyRepr x ++ ", " ++ pyReprItems rest

end

/-- Python str() of an embedded value. -/
def pyStr (b : Py) : String :=
  match b with
  | .pstr s => s
  | _ => pyRepr b

/-- Python dict lookup (dict.get / the "in" test on keys). -/
def pyGet (key : String) : List (String × Py) → Option Py
  | [] => none
  | (k, v) :: rest => if k = key then some v else pyGet key rest

/-- Python truthiness of the embedded values. -/
def pyTruthy : Py → Bool
  | .pstr s => !s.isEmpty
  | .pdict es => !es.isEmpty
  | .plist xs => !xs.isEmpty

/-- Python v[0]: the head of a list, the first character of a string;
indexing a dict by 0 raises (none models the raised path, which the
except clause of the caller turns into str(body) — the same result). -/
def pyIndex0 : Py → Option Py
  | .plist (x :: _) => some x
  | .pstr s =>
    match s.toList with
    | c :: _ => some (.pstr (String.singleton c))
    | [] => none
  | _ => none

namespace Weirdhost

/-- weirdhost_renew.py parse_renew_error: for a dict body with a
non-empty "errors" list whose first element is a dict, return its
"detail" (defaulting to str(body)); in every other case, including the
exception path, return str(body).  (A non-string "detail" value would
be passed through raw by the source and later crash .lower(), aborting
the run; it is rendered with str here, which no claim depends on.) -/
def parse_renew_error (body : Py) : String :=
  match body with
  | .pdict es =>
    match pyGet "errors" es with
    | some errors =>
      if pyTruthy errors then
        match pyIndex0 errors with
        | some (.pdict fe) =>
          match pyGet "detail" fe with
          | some (.pstr d) => d
          | some v => pyStr v
          | none => pyStr body
        | _ => pyStr body
      else pyStr body
    | none => pyStr body
  | _ => pyStr body

/-- weirdhost_renew.py is_cooldown_error keyword list. -/
def cooldown_keywords : List String :=
  ["can only once at one time period",
   "can" ++ apos ++ "t renew",
   "cannot renew",
   "already renewed"]

/-- weirdhost_renew.py is_cooldown_error: does the lowercased error
detail contain any of the known cooldown phrases? -/
def is_cooldown_error (error_detail : String) : Bool :=
  cooldown_keywords.any (fun kw => strContains (pyLowerStr error_detail) kw)

/-- The notification kinds the weirdhost script can send after the
click (the message texts carry the parts the claims mention). -/
inductive WNotice where
  | success
  | cooldown
  | failed (msg : String)
  | noResponse
  deriving DecidableEq, Repr

/-- weirdhost_renew.py add_server_time, result handling of a captured
response (the branch starting "处理结果"): 200/201/204 is success; 400
is cooldown when is_cooldown_error accepts the parsed detail and
otherwise a failure carrying the detail; any other status is a failure
carrying "HTTP status - body". -/
def classify_captured (status : Nat) (body : Py) : WNotice :=
  if status = 200 ∨ status = 201 ∨ status = 204 then .success
  else if status = 400 then
    let error_detail := parse_renew_error body
    if is_cooldown_error error_detail then .cooldown
    else .failed error_detail
  else .failed ("HTTP " ++ toString status ++ " - " ++ pyStr body)

/-- weirdhost_renew.py add_server_time, the same classification in the
retry branch (after re-clicking): there a non-400 failure message is
the parsed detail rather than "HTTP status - body". -/
def classify_retry (status : Nat) (body : Py) : WNotice :=
  if status = 200 ∨ status = 201 ∨ status = 204 then .success
  else if status = 400 ∧ is_cooldown_error (parse_renew_error body) then
    .cooldown
  else .failed (parse_renew_error body)

/-- weirdhost_renew.py add_server_time after the click: classify the
first captured response if any; otherwise reload, re-click when the
button is found again, and classify a response captured then; if still
nothing was captured, report "no API response detected (retried),
manual check" with a screenshot attached (the returned Bool). -/
def after_click (first : Option (Nat × Py)) (buttonOnRetry : Bool)
    (second : Option (Nat × Py)) : WNotice × Bool :=
  match first with
  | some (s, b) => (classify_captured s b, false)
  | none =>
    match (if buttonOnRetry then second else none) with
    | some (s, b) => (classify_retry s b, false)
    | none => (.noResponse, true)

/-- weirdhost_renew.py extract_remember_cookie: the first browser
cookie whose name starts with "remember_web" (None on no match). -/
def extract_remember_cookie (cookies : List (String × String)) :
    Option (String × String) :=
  cookies.find? (fun c => ("remember_web".toList).isPrefixOf c.1.toList)

/-- weirdhost_renew.py add_server_time, the "更新 Cookie" step: the
secret writes performed, as (secret name, value) pairs.  The cookie
secret is written only when a cookie was extracted, its value is truthy
and it differs from the original; the name secret additionally only
when the name changed. -/
def secret_updates (cookies : List (String × String))
    (cookie_name cookie_value : String) : List (String × String) :=
  match extract_remember_cookie cookies with
  | some (n, v) =>
    if v != "" && v != cookie_value then
      ("REMEMBER_WEB_COOKIE", v)
        :: (if n != cookie_name then [("REMEMBER_WEB_COOKIE_NAME", n)] else [])
    else []
  | none => []

/-- The start of weirdhost_renew.py add_server_time: an unset/empty
REMEMBER_WEB_COOKIE is reported as a configuration error and the
routine returns before any browser automation. -/
inductive WStart where
  | configError
  | proceed
  deriving DecidableEq, Repr

def weirdhost_start (cookie_value_env : String) : WStart :=
  if pyStripStr cookie_value_env = "" then .configError else .proceed

end Weirdhost

namespace Kata

/-- The page state katabump_renew.py run inspects after confirming the
renewal: the URL after the click, the rendered page content, the expiry
scraped before the click and the one scraped on the re-check
(get_expiry_from_text results; None when its regex found nothing), and
the current date (datetime.now truncated to midnight). -/
structure KataInput where
  current_url : String
  page_content : String
  old_expiry_found : Option String
  new_expiry_found : Option String
  today : Date
  deriving DecidableEq, Repr

/-- The days value computed before the attempt:
days_until(get_expiry_from_text(...) or "未知"). -/
def days_of (i : KataInput) : Option Int :=
  days_until (i.old_expiry_found.getD "未知") i.today

/-- katabump_renew.py "if days is not None and days <= 2". -/
def days_leq2 : Option Int → Bool
  | some v => decide (v ≤ 2)
  | none => false

/-- The outcome classes of the result check of katabump_renew.py run. -/
inductive KClass where
  | urlSuccess
  | limited
  | captcha
  | expirySuccess
  | unknownOutcome
  deriving DecidableEq, Repr

/-- The Telegram notifications katabump_renew.py can send from the
result check (each of the photo notices carries a fresh screenshot;
message texts are elided). -/
inductive KNotice where
  | successPhoto
  | limitedPhoto
  | captchaPhoto
  | unknownPhoto
  | errorText (msg : String)
  deriving DecidableEq, Repr

/-- katabump_renew.py run, the "检查结果" section: classify by URL
marker, then captcha marker, then the expiry re-check, and send the
success photo unconditionally but the limited / captcha / unknown
photos only when days is not None and at most 2. -/
def kata_check_result (i : KataInput) : KClass × List KNotice :=
  if strContains i.current_url "renew=success" then
    (.urlSuccess, [.successPhoto])
  else if strContains i.current_url "renew-error" then
    (.limited, if days_leq2 (days_of i) then [.limitedPhoto] else [])
  else if strContains (pyLowerStr i.current_url) "captcha"
      || strContains (pyLowerStr i.page_content) "captcha" then
    (.captcha, if days_leq2 (days_of i) then [.captchaPhoto] else [])
  else if (i.new_expiry_found.getD "未知") != "未知"
      && (i.old_expiry_found.getD "未知") != "未知"
      && pyStrLt (i.old_expiry_found.getD "未知")
          (i.new_expiry_found.getD "未知") then
    (.expirySuccess, [.successPhoto])
  else
    (.unknownOutcome, if days_leq2 (days_of i) then [.unknownPhoto] else [])

/-- katabump_renew.py run as a whole: on an exception anywhere in the
try block it logs, sends a text notification, and re-raises; the
re-raised exception is the Except.error component, which main passes to
asyncio.run uncaught, terminating the process. -/
def kata_run_model (body : Except String (List KNotice)) :
    List KNotice × Except String Unit :=
  match body with
  | .ok ns => (ns, .ok ())
  | .error e => ([.errorText ("❌ KataBump 出错: " ++ e)], .error e)

end Kata

namespace Lunes

/-- lunes-host_renew.py AccountResult (the server list is elided; only
the fields the claims mention are kept). -/
structure AccountResult where
  idx : Nat
  error : String := ""
  cookie_changed : Bool := false
  new_cookie : String := ""
  deriving DecidableEq, Repr

/-- The outcome of the browser part of one Lunes account: an exception
raised inside the try block, an empty server list (at the login page or
not), or a completed run with the cookie string extract_cookies
re-serialized (None when extraction found no lunes.host cookies). -/
inductive BrowserRun where
  | raises (msg : String)
  | noServers (atLogin : Bool)
  | completes (extracted : Option String)
  deriving DecidableEq, Repr

/-- The re.search(r"session=([^;]+)", s) the cookie comparison uses:
the value of the first session= occurrence, up to the next ';'. -/
def session_value : List Char → Option (List Char)
  | [] => none
  | c :: rest =>
    if ("session=".toList).isPrefixOf (c :: rest) then
      match ((c :: rest).drop 8).takeWhile (fun ch => ch != ';') with
      | [] => session_value rest
      | v => some v
    else session_value rest

/-- lunes-host_renew.py process_account: a credential parsing to zero
cookies fails hard before any browser work; an exception from the
browser part is caught and recorded in result.error; after a completed
run the extracted cookie is compared to the original (by the session
component when both sides have one, else by whole-string inequality)
to decide cookie_changed. -/
def process_account (cookie_str : String) (idx : Nat) (body : BrowserRun) :
    AccountResult :=
  if parse_cookies cookie_str = [] then
    { idx := idx + 1, error := "Cookie解析失败" }
  else
    match body with
    | .raises m => { idx := idx + 1, error := m }
    | .noServers atLogin =>
        { idx := idx + 1,
          error := if atLogin then "Cookie已失效" else "无服务器" }
    | .completes extracted =>
      match extracted with
      | some nc =>
        if nc = "" then { idx := idx + 1, new_cookie := cookie_str }
        else
          match session_value cookie_str.toList, session_value nc.toList with
          | some oldS, some newS =>
            if oldS = newS then { idx := idx + 1, new_cookie := cookie_str }
            else { idx := idx + 1, cookie_changed := true, new_cookie := nc }
          | _, _ =>
            { idx := idx + 1, cookie_changed := nc != cookie_str,
              new_cookie := nc }
      | none => { idx := idx + 1, new_cookie := cookie_str }

/-- the account loop of lunes-host_renew.py main: every configured account
is processed in order (process_account catches its own failures, so the
loop never stops early). -/
def lunes_run (idx : Nat) : List (String × BrowserRun) → List AccountResult
  | [] => []
  | (c, b) :: rest => process_account c idx b :: lunes_run (idx + 1) rest

/-- lunes-host_renew.py main: the results of all accounts, and whether
the LUNES_COOKIES secret is rewritten (exactly when the cookie of
some account changed). -/
def lunes_main (accounts : List (String × BrowserRun)) :
    List AccountResult × Bool :=
  let rs := lunes_run 0 accounts
  (rs, rs.any (fun r => r.cookie_changed))

/-- The shape of the per-account summary notification lines (server
detail lines are elided): an account header, an error line exactly for
a recorded error, and a cookie-updated line exactly for a rotation. -/
inductive SummaryItem where
  | header (idx : Nat)
  | errorLine (idx : Nat) (msg : String)
  | cookieUpdated (idx : Nat)
  deriving DecidableEq, Repr

def account_summary (r : AccountResult) : List SummaryItem :=
  [.header r.idx]
    ++ (if r.error != "" then [.errorLine r.idx r.error] else [])
    ++ (if r.cookie_changed then [.cookieUpdated r.idx] else [])

end Lunes

namespace Castle

/-- castle-host_renew.py perform_renewal indicator phrases. -/
def success_indicators : List String :=
  ["успех", "success", "продлен", "renewed", "续约成功",
   "Сервер продлен", "Server renewed"]

def error_indicators : List String :=
  ["ошибка", "error", "失败", "не удалось",
   "Уже продлен", "Already renewed",
   "Недостаточно средств", "Insufficient funds"]

/-- castle-host_renew.py perform_renewal after the button was found,
enabled and clicked: request_sent / the /buy_months/ response status
come from the network listeners, page_text from the page afterwards.
An error indicator on the page returns False; otherwise every branch
returns True — including the "续约状态不确定" case with no confirming
signal, which is treated as tentative success. -/
def castle_click_outcome (request_sent : Bool) (buy_status : Option Nat)
    (page_text : String) : Bool :=
  let request_success := buy_status == some 200
  let request_success := request_success
    || success_indicators.any
        (fun ind => strContains (pyLowerStr page_text) (pyLowerStr ind))
  if error_indicators.any
      (fun ind => strContains (pyLowerStr page_text) (pyLowerStr ind)) then
    false
  else if request_sent && request_success then true
  else if request_success then true
  else true

/-- The start of castle-host_renew.py main: an empty CASTLE_COOKIES is
reported and aborts; a credential parsing to zero cookies is reported
as a parse error and aborts; only otherwise does the browser launch
with the parsed cookies. -/
inductive CastleStart where
  | missingEnv
  | parseError
  | proceed (cookies : List CookieRec)
  deriving DecidableEq, Repr

def castle_main_start (env_cookie : String) : CastleStart :=
  if pyStripStr env_cookie = "" then .missingEnv
  else
    match parse_cookie_string (pyStripStr env_cookie) with
    | [] => .parseError
    | cs => .proceed cs

end Castle

/-! ## Claim C1 -/

/-- Claim C1: a captured renewal response is classified from its
payload — status 200/201/204 is success; a 400 whose parsed error
detail contains a known cooldown phrase (such as "already renewed" or
"can only once at one time period", matched case-insensitively) is the
informational cooldown notice, not an error; any other captured status,
or a 400 with unrecognized detail, is a failure carrying the
provider-supplied message. -/
theorem c1_renew_response_classification (status : Nat) (body : Py) :
    ((status = 200 ∨ status = 201 ∨ status = 204) →
        Weirdhost.classify_captured status body = .success)
  ∧ (status = 400 →
      (strContains (pyLowerStr (Weirdhost.parse_renew_error body))
          "already renewed" = true
        ∨ strContains (pyLowerStr (Weirdhost.parse_renew_error body))
          "can only once at one time period" = true) →
        Weirdhost.classify_captured status body = .cooldown)
  ∧ (status = 400 →
        Weirdhost.is_cooldown_error (Weirdhost.parse_renew_error body)
          = false →
        Weirdhost.classify_captured status body
          = .failed (Weirdhost.parse_renew_error body))
  ∧ (status ≠ 200 → status ≠ 201 → status ≠ 204 → status ≠ 400 →
        Weirdhost.classify_captured status body
          = .failed ("HTTP " ++ toString status ++ " - " ++ pyStr body)) := by
  refine ⟨?_, ?_, ?_, ?_⟩
  · intro h
    unfold Weirdhost.classify_captured
    rw [if_pos h]
  · intro h400 hkw
    subst h400
    have hcool : Weirdhost.is_cooldown_error
        (Weirdhost.parse_renew_error body) = true := by
      unfold Weirdhost.is_cooldown_error
      rw [List.any_eq_true]
      rcases hkw with h | h
      · exact ⟨"already renewed", by decide, h⟩
      · exact ⟨"can only once at one time period", by decide, h⟩
    simp [Weirdhost.classify_captured, hcool]
  · intro h400 hno
    subst h400
    simp [Weirdhost.classify_captured, hno]
  · intro h1 h2 h3 h4
    simp [Weirdhost.classify_captured, h1, h2, h3, h4]

/-- Witness for C1: the four classification cases at concrete captured
responses. -/
theorem c1_renew_response_classification_witness :
    Weirdhost.classify_captured 204 (Py.pstr "ok") = .success
  ∧ Weirdhost.classify_captured 400
      (Py.pdict [("errors",
        Py.plist [Py.pdict [("detail",
          Py.pstr "You have Already Renewed in this period")]])])
      = .cooldown
  ∧ Weirdhost.classify_captured 400 (Py.pstr "quota exceeded")
      = .failed (Weirdhost.parse_renew_error (Py.pstr "quota exceeded"))
  ∧ Weirdhost.classify_captured 500 (Py.pstr "oops")
      = .failed ("HTTP " ++ toString 500 ++ " - " ++ pyStr (Py.pstr "oops")) :=
  ⟨(c1_renew_response_classification 204 (Py.pstr "ok")).1
      (Or.inr (Or.inr rfl)),
   (c1_renew_response_classification 400
      (Py.pdict [("errors",
        Py.plist [Py.pdict [("detail",
          Py.pstr "You have Already Renewed in this period")]])])).2.1
      rfl (Or.inl (by decide)),
   (c1_renew_response_classification 400 (Py.pstr "quota exceeded")).2.2.1
      rfl (by decide),
   (c1_renew_response_classification 500 (Py.pstr "oops")).2.2.2
      (by decide) (by decide) (by decide) (by decide)⟩

/-! ## KataBump result-check helper lemmas -/

theorem kata_branches (i : Kata.KataInput) :
    Kata.kata_check_result i = (.urlSuccess, [.successPhoto])
  ∨ Kata.kata_check_result i
      = (.limited,
         if Kata.days_leq2 (Kata.days_of i) then [.limitedPhoto] else [])
  ∨ Kata.kata_check_result i
      = (.captcha,
         if Kata.days_leq2 (Kata.days_of i) then [.captchaPhoto] else [])
  ∨ Kata.kata_check_result i = (.expirySuccess, [.successPhoto])
  ∨ Kata.kata_check_result i
      = (.unknownOutcome,
         if Kata.days_leq2 (Kata.days_of i) then [.unknownPhoto] else []) := by
  unfold Kata.kata_check_result Kata.days_of
  split
  · exact Or.inl rfl
  · split
    · exact Or.inr (Or.inl rfl)
    · split
      · exact Or.inr (Or.inr (Or.inl rfl))
      · split
        · exact Or.inr (Or.inr (Or.inr (Or.inl rfl)))
        · exact Or.inr (Or.inr (Or.inr (Or.inr rfl)))

theorem days_leq2_iff (o : Option Int) :
    Kata.days_leq2 o = true ↔ ∃ v, o = some v ∧ v ≤ 2 := by
  cases o with
  | none => simp [Kata.days_leq2]
  | some v => simp [Kata.days_leq2]

/-! ## Claim C9 -/

/-- Claim C9: when the KataBump result check classifies the outcome as
rate-limited, captcha-required or unknown, a notification is sent
exactly when the days-remaining value computed before the attempt is
not None and at most 2; otherwise these outcomes send nothing. -/
theorem c9_kata_notification_gating (i : Kata.KataInput) :
    ((Kata.kata_check_result i).1 = Kata.KClass.limited
      ∨ (Kata.kata_check_result i).1 = Kata.KClass.captcha
      ∨ (Kata.kata_check_result i).1 = Kata.KClass.unknownOutcome) →
    ((Kata.kata_check_result i).2 ≠ []
      ↔ ∃ v, Kata.days_of i = some v ∧ v ≤ 2) := by
  intro hc
  rcases kata_branches i with h | h | h | h | h <;> rw [h] at hc ⊢ <;>
    simp only at hc ⊢
  · rcases hc with hc | hc | hc <;> cases hc
  · by_cases hd : Kata.days_leq2 (Kata.days_of i) = true
    · rw [if_pos hd]
      constructor
      · intro _; exact (days_leq2_iff _).mp hd
      · intro _; simp
    · rw [if_neg hd]
      constructor
      · intro hne; exact absurd rfl hne
      · intro hv; exact absurd ((days_leq2_iff _).mpr hv) hd
  · by_cases hd : Kata.days_leq2 (Kata.days_of i) = true
    · rw [if_pos hd]
      constructor
      · intro _; exact (days_leq2_iff _).mp hd
      · intro _; simp
    · rw [if_neg hd]
      constructor
      · intro hne; exact absurd rfl hne
      · intro hv; exact absurd ((days_leq2_iff _).mpr hv) hd
  · rcases hc with hc | hc | hc <;> cases hc
  · by_cases hd : Kata.days_leq2 (Kata.days_of i) = true
    · rw [if_pos hd]
      constructor
      · intro _; exact (days_leq2_iff _).mp hd
      · intro _; simp
    · rw [if_neg hd]
      constructor
      · intro hne; exact absurd rfl hne
      · intro hv; exact absurd ((days_leq2_iff _).mpr hv) hd

/-- Witness for C9: a rate-limited outcome with one day remaining does
notify. -/
theorem c9_kata_notification_gating_witness :
    (Kata.kata_check_result
      ⟨"https://dashboard.katabump.com/servers/edit?id=1&renew-error=Wait",
        "", some "2026-01-12", none, ⟨2026, 1, 11⟩⟩).2 ≠ [] :=
  (c9_kata_notification_gating
      ⟨"https://dashboard.katabump.com/servers/edit?id=1&renew-error=Wait",
        "", some "2026-01-12", none, ⟨2026, 1, 11⟩⟩
      (Or.inl (by decide))).mpr ⟨1, by decide, by decide⟩

/-! ## Claim C2 -/

/-- Claim C2 counterexample: in the KataBump script an ambiguous
outcome (no URL marker, no captcha marker, no expiry progress) with an
unparsable pre-attempt expiry sends no notification at all, so no
screenshot is attached to any notification and nothing is reported as
needing a manual check. -/
theorem c2_counterexample :
    (Kata.kata_check_result
        ⟨"https://dashboard.katabump.com/servers/edit?id=185829", "",
          none, none, ⟨2026, 1, 1⟩⟩).1 = Kata.KClass.unknownOutcome
  ∧ (Kata.kata_check_result
        ⟨"https://dashboard.katabump.com/servers/edit?id=185829", "",
          none, none, ⟨2026, 1, 1⟩⟩).2 = [] :=
  ⟨by decide, by decide⟩

/-- Claim C2 as amended: in the Weirdhost script an uncaptured response
after the bounded waits including the retry is reported as "no API
response detected, manual check" with a screenshot attached; in the
KataBump script the analogous unknown-outcome screenshot notification
is sent only when the pre-attempt days-remaining is known and at most
2, and otherwise nothing is sent; in the Castle-Host script a click
with no confirming signal is treated as tentative success rather than
ambiguous. -/
theorem c2_amended_outcome_reporting :
    (∀ btn : Bool, Weirdhost.after_click none btn none
        = (Weirdhost.WNotice.noResponse, true))
  ∧ (∀ second, Weirdhost.after_click none false second
        = (Weirdhost.WNotice.noResponse, true))
  ∧ (∀ (i : Kata.KataInput) (v : Int),
        (Kata.kata_check_result i).1 = Kata.KClass.unknownOutcome →
        Kata.days_of i = some v → v ≤ 2 →
        (Kata.kata_check_result i).2 = [Kata.KNotice.unknownPhoto])
  ∧ (∀ i : Kata.KataInput,
        (Kata.kata_check_result i).1 = Kata.KClass.unknownOutcome →
        Kata.days_of i = none →
        (Kata.kata_check_result i).2 = [])
  ∧ Castle.castle_click_outcome false none "Minecraft panel page" = true := by
  refine ⟨?_, ?_, ?_, ?_, by decide⟩
  · intro btn; cases btn <;> rfl
  · intro second; rfl
  · intro i v h1 h2 h3
    have hd : Kata.days_leq2 (Kata.days_of i) = true := by
      rw [h2]; simp [Kata.days_leq2, h3]
    rcases kata_branches i with h | h | h | h | h <;> rw [h] at h1 ⊢ <;>
      simp only at h1 ⊢ <;> try cases h1
    rw [if_pos hd]
  · intro i h1 h2
    have hd : Kata.days_leq2 (Kata.days_of i) = false := by
      rw [h2]; rfl
    rcases kata_branches i with h | h | h | h | h <;> rw [h] at h1 ⊢ <;>
      simp only at h1 ⊢ <;> try cases h1
    rw [if_neg (by rw [hd]; exact Bool.false_ne_true)]

/-- Witness for C2 (amended): an unknown KataBump outcome with zero
days remaining does send the unknown-status screenshot notification. -/
theorem c2_amended_outcome_reporting_witness :
    (Kata.kata_check_result
      ⟨"https://dashboard.katabump.com/servers/edit?id=185829", "",
        some "2026-01-11", some "2026-01-11", ⟨2026, 1, 11⟩⟩).2
      = [Kata.KNotice.unknownPhoto] :=
  c2_amended_outcome_reporting.2.2.1
    ⟨"https://dashboard.katabump.com/servers/edit?id=185829", "",
      some "2026-01-11", some "2026-01-11", ⟨2026, 1, 11⟩⟩
    0 (by decide) (by decide) (by decide)

/-! ## Lunes account-loop helper lemmas -/

theorem lunes_run_length :
    ∀ (accounts : List (String × Lunes.BrowserRun)) (idx : Nat),
      (Lunes.lunes_run idx accounts).length = accounts.length := by
  intro accounts
  induction accounts with
  | nil => intro idx; rfl
  | cons a t ih =>
    intro idx
    obtain ⟨c, b⟩ := a
    rw [Lunes.lunes_run, List.length_cons, ih]
    rfl

/-- Re-injecting the unchanged credential leaves cookie_changed false:
the session components of equal strings are equal, and so are the whole
strings. -/
theorem process_account_self_unchanged (c : String) (idx : Nat) :
    (Lunes.process_account c idx
        (Lunes.BrowserRun.completes (some c))).cookie_changed = false := by
  by_cases hp : Lunes.parse_cookies c = []
  · simp [Lunes.process_account, hp]
  · by_cases hc : c = ""
    · exfalso
      subst hc
      exact hp (by decide)
    · cases hs : Lunes.session_value c.data with
      | some s => simp [Lunes.process_account, String.toList, hp, hc, hs]
      | none => simp [Lunes.process_account, String.toList, hp, hc, hs]

theorem lunes_run_any_self :
    ∀ (accounts : List (String × Lunes.BrowserRun)) (idx : Nat),
      (∀ p ∈ accounts, p.2 = Lunes.BrowserRun.completes (some p.1)) →
      (Lunes.lunes_run idx accounts).any (fun r => r.cookie_changed)
        = false := by
  intro accounts
  induction accounts with
  | nil => intro idx _; rfl
  | cons a t ih =>
    intro idx h
    obtain ⟨c, b⟩ := a
    have hb : b = Lunes.BrowserRun.completes (some c) := h (c, b) (by simp)
    subst hb
    rw [Lunes.lunes_run, List.any_cons, process_account_self_unchanged,
      ih (idx + 1) (fun p hp => h p (by simp [hp]))]
    rfl

/-! ## Claim C6 -/

/-- Claim C6 counterexample: the top-level handler of katabump_renew.py run
re-raises after logging and notifying, so the exception escapes the
per-account routine (and main passes it to asyncio.run uncaught,
terminating the process with an error instead of continuing). -/
theorem c6_counterexample :
    (Kata.kata_run_model (Except.error "boom")).2 ≠ Except.ok () :=
  fun h => Except.noConfusion h

/-- Claim C6 as amended: exceptions in a per-account routine are caught
at the top level of that routine and reported via notification; in the Lunes
script the error is recorded in the account result, every configured
account is still processed and the recorded error appears in the
summary notification, but in the KataBump script the handler re-raises
after notifying, terminating the (single-account) run with the error. -/
theorem c6_amended_exception_handling :
    (∀ accounts, (Lunes.lunes_main accounts).1.length = accounts.length)
  ∧ (∀ (c : String) (idx : Nat) (m : String), Lunes.parse_cookies c ≠ [] →
        (Lunes.process_account c idx (Lunes.BrowserRun.raises m)).error = m)
  ∧ (∀ r : Lunes.AccountResult, r.error ≠ "" →
        Lunes.SummaryItem.errorLine r.idx r.error ∈ Lunes.account_summary r)
  ∧ (∀ ns, Kata.kata_run_model (Except.ok ns) = (ns, Except.ok ()))
  ∧ (∀ e, Kata.kata_run_model (Except.error e)
        = ([Kata.KNotice.errorText ("❌ KataBump 出错: " ++ e)],
           Except.error e)) := by
  refine ⟨?_, ?_, ?_, fun ns => rfl, fun e => rfl⟩
  · intro accounts
    exact lunes_run_length accounts 0
  · intro c idx m h
    unfold Lunes.process_account
    rw [if_neg h]
  · intro r h
    simp [Lunes.account_summary, h]

/-- Witness for C6 (amended): a concrete exception is recorded in the
account result rather than escaping. -/
theorem c6_amended_exception_handling_witness :
    (Lunes.process_account "a=1" 0 (Lunes.BrowserRun.raises "boom")).error
      = "boom" :=
  c6_amended_exception_handling.2.1 "a=1" 0 "boom" (by decide)

/-! ## Claim C7 -/

/-- Claim C7: after the interaction the scripts re-read the browser
cookies, extract the provider credential and compare it with the
original; the secret store is written only when the extracted
credential differs, and an unchanged credential causes no write — in
Weirdhost via the extracted remember_web cookie value, in Lunes via the
per-account cookie comparison feeding the any-changed check of main. -/
theorem c7_secret_update_only_on_change :
    (∀ (cookies : List (String × String)) (name value n v : String),
        Weirdhost.extract_remember_cookie cookies = some (n, v) →
        v = value →
        Weirdhost.secret_updates cookies name value = [])
  ∧ (∀ (cookies : List (String × String)) (name value : String),
        Weirdhost.secret_updates cookies name value ≠ [] →
        ∃ n v, Weirdhost.extract_remember_cookie cookies = some (n, v)
          ∧ v ≠ "" ∧ v ≠ value)
  ∧ (∀ (cookies : List (String × String)) (name value : String),
        Weirdhost.extract_remember_cookie cookies = none →
        Weirdhost.secret_updates cookies name value = [])
  ∧ (∀ (c : String) (idx : Nat),
        (Lunes.process_account c idx
            (Lunes.BrowserRun.completes (some c))).cookie_changed = false)
  ∧ (∀ accounts,
        (∀ p ∈ accounts, p.2 = Lunes.BrowserRun.completes (some p.1)) →
        (Lunes.lunes_main accounts).2 = false) := by
  refine ⟨?_, ?_, ?_, process_account_self_unchanged, ?_⟩
  · intro cookies name value n v hx hv
    subst hv
    unfold Weirdhost.secret_updates
    rw [hx]
    simp
  · intro cookies name value h
    cases hx : Weirdhost.extract_remember_cookie cookies with
    | none => simp [Weirdhost.secret_updates, hx] at h
    | some p =>
      obtain ⟨n, v⟩ := p
      by_cases hv0 : v = ""
      · subst hv0
        simp [Weirdhost.secret_updates, hx] at h
      · by_cases hvv : v = value
        · subst hvv
          simp [Weirdhost.secret_updates, hx] at h
        · exact ⟨n, v, rfl, hv0, hvv⟩
  · intro cookies name value h
    unfold Weirdhost.secret_updates
    rw [h]
  · intro accounts h
    exact lunes_run_any_self accounts 0 h

/-- Witness for C7: an unchanged extracted cookie writes nothing. -/
theorem c7_secret_update_only_on_change_witness :
    Weirdhost.secret_updates [("remember_web_x", "v1")]
      "remember_web_x" "v1" = [] :=
  c7_secret_update_only_on_change.1 [("remember_web_x", "v1")]
    "remember_web_x" "v1" "remember_web_x" "v1" (by decide) rfl

/-! ## Claim C8 -/

/-- Claim C8: a credential string parsing to zero cookie records (in
particular an empty one) is a hard failure: the run reports a
configuration or parsing error and performs no browser automation for
that account — Castle-Host never reaches the proceed state, Lunes
returns the parse-failure result without consulting the browser at all,
and Weirdhost aborts on an empty credential before launching. -/
theorem c8_zero_cookie_hard_failure :
    (∀ env : String, Castle.parse_cookie_string (pyStripStr env) = [] →
        ∀ cs, Castle.castle_main_start env ≠ Castle.CastleStart.proceed cs)
  ∧ (∀ (c : String) (idx : Nat) (b₁ b₂ : Lunes.BrowserRun),
        Lunes.parse_cookies c = [] →
        Lunes.process_account c idx b₁ = Lunes.process_account c idx b₂
        ∧ (Lunes.process_account c idx b₁).error = "Cookie解析失败")
  ∧ Weirdhost.weirdhost_start "" = Weirdhost.WStart.configError
  ∧ Castle.parse_cookie_string "" = []
  ∧ Lunes.parse_cookies "" = [] := by
  refine ⟨?_, ?_, rfl, by decide, by decide⟩
  · intro env h cs hcon
    unfold Castle.castle_main_start at hcon
    by_cases he : pyStripStr env = ""
    · rw [if_pos he] at hcon
      cases hcon
    · rw [if_neg he, h] at hcon
      cases hcon
  · intro c idx b₁ b₂ h
    unfold Lunes.process_account
    rw [if_pos h, if_pos h]
    exact ⟨rfl, rfl⟩

/-- Witness for C8: a credential without any name=value pair never
reaches the browser-launch state. -/
theorem c8_zero_cookie_hard_failure_witness :
    Castle.castle_main_start "cookie" ≠ Castle.CastleStart.proceed [] :=
  c8_zero_cookie_hard_failure.1 "cookie" (by decide) []
